import Mathlib

/-!
Shallow embedding of the ha-monitor repository (Go) in Lean 4.

The embedding covers:
- `internal/monitor/monitor.go`: the `Monitor` struct, `isSuccessStatus`,
  `NewMonitor`, `Check` and `UpdateConfig`.  External HTTP effects (the probe,
  the two notification calls and the device restart) are modelled by an
  explicit per-cycle environment recording their outcomes, and `Check`
  additionally returns the set of side calls it performed.
- `internal/tuya/tuya.go`: the `Config` struct, `NewClient`, `RestartDevice`,
  `getToken` (token cache fast/slow path), `calculateSign`, the inline signing
  of `getNewToken`, and the string-to-sign construction of `controlSwitch`.
  HMAC-SHA256 (Go `crypto/hmac` + `crypto/sha256`, FIPS 180-4 / FIPS 198-1)
  is implemented executably over byte lists with `Nat` words reduced mod 2^32.

Machine integers are modelled as `Int`/`Nat`; Go `time.Duration` values are
integers of nanoseconds, and the token-cache clock is in seconds.
-/

namespace HaMonitor

/-! ### SHA-256 (Go crypto/sha256, FIPS 180-4) over byte lists -/

/-- The 64 SHA-256 round constants (FIPS 180-4 section 4.2.2). -/
def sha256K : List Nat :=
  [0x428A2F98, 0x71374491, 0xB5C0FBCF, 0xE9B5DBA5,
   0x3956C25B, 0x59F111F1, 0x923F82A4, 0xAB1C5ED5,
   0xD807AA98, 0x12835B01, 0x243185BE, 0x550C7DC3,
   0x72BE5D74, 0x80DEB1FE, 0x9BDC06A7, 0xC19BF174,
   0xE49B69C1, 0xEFBE4786, 0x0FC19DC6, 0x240CA1CC,
   0x2DE92C6F, 0x4A7484AA, 0x5CB0A9DC, 0x76F988DA,
   0x983E5152, 0xA831C66D, 0xB00327C8, 0xBF597FC7,
   0xC6E00BF3, 0xD5A79147, 0x06CA6351, 0x14292967,
   0x27B70A85, 0x2E1B2138, 0x4D2C6DFC, 0x53380D13,
   0x650A7354, 0x766A0ABB, 0x81C2C92E, 0x92722C85,
   0xA2BFE8A1, 0xA81A664B, 0xC24B8B70, 0xC76C51A3,
   0xD192E819, 0xD6990624, 0xF40E3585, 0x106AA070,
   0x19A4C116, 0x1E376C08, 0x2748774C, 0x34B0BCB5,
   0x391C0CB3, 0x4ED8AA4A, 0x5B9CCA4F, 0x682E6FF3,
   0x748F82EE, 0x78A5636F, 0x84C87814, 0x8CC70208,
   0x90BEFFFA, 0xA4506CEB, 0xBEF9A3F7, 0xC67178F2]

/-- Right rotation of a 32-bit word held in a `Nat`. -/
def rotr32 (x n : Nat) : Nat := ((x >>> n) ||| (x <<< (32 - n))) % 2 ^ 32

/-- Bitwise complement of a 32-bit word held in a `Nat`. -/
def not32 (x : Nat) : Nat := x ^^^ 0xffffffff

def chF (x y z : Nat) : Nat := (x &&& y) ^^^ (not32 x &&& z)

def majF (x y z : Nat) : Nat := (x &&& y) ^^^ (x &&& z) ^^^ (y &&& z)

def bsig0 (x : Nat) : Nat := rotr32 x 2 ^^^ rotr32 x 13 ^^^ rotr32 x 22

def bsig1 (x : Nat) : Nat := rotr32 x 6 ^^^ rotr32 x 11 ^^^ rotr32 x 25

def ssig0 (x : Nat) : Nat := rotr32 x 7 ^^^ rotr32 x 18 ^^^ (x >>> 3)

def ssig1 (x : Nat) : Nat := rotr32 x 17 ^^^ rotr32 x 19 ^^^ (x >>> 10)

/-- Big-endian 8-byte rendering of a (64-bit) length field. -/
def u64be (x : Nat) : List Nat :=
  [(x >>> 56) % 256, (x >>> 48) % 256, (x >>> 40) % 256, (x >>> 32) % 256,
   (x >>> 24) % 256, (x >>> 16) % 256, (x >>> 8) % 256, x % 256]

/-- Big-endian 4-byte rendering of a 32-bit word. -/
def u32be (x : Nat) : List Nat :=
  [(x >>> 24) % 256, (x >>> 16) % 256, (x >>> 8) % 256, x % 256]

/-- SHA-256 padding: append `0x80`, zeros to 56 mod 64, then the bit length. -/
def padMsg (msg : List Nat) : List Nat :=
  msg ++ 0x80 :: List.replicate ((56 + 64 - (msg.length + 1) % 64) % 64) 0
      ++ u64be (8 * msg.length)

/-- Split a byte list into 64-byte blocks. -/
def chunks64 (l : List Nat) : List (List Nat) :=
  if _h : l = [] then [] else
    l.take 64 :: chunks64 (l.drop 64)
termination_by l.length
decreasing_by
  simp only [List.length_drop]
  exact Nat.sub_lt (List.length_pos.mpr _h) (by decide)

/-- The eight-word SHA-256 working state. -/
structure Sha256State where
  a : Nat
  b : Nat
  c : Nat
  d : Nat
  e : Nat
  f : Nat
  g : Nat
  h : Nat

/-- Initial SHA-256 hash value (FIPS 180-4 section 5.3.3). -/
def sha256Init : Sha256State :=
  ⟨0x6A09E667, 0xBB67AE85, 0x3C6EF372, 0xA54FF53A,
   0x510E527F, 0x9B05688C, 0x1F83D9AB, 0x5BE0CD19⟩

/-- The first 16 words of the message schedule, big-endian from the block. -/
def initW (block : List Nat) : List Nat :=
  (List.range 16).map fun t =>
    block.getD (4 * t) 0 * 2 ^ 24 + block.getD (4 * t + 1) 0 * 2 ^ 16 +
      block.getD (4 * t + 2) 0 * 2 ^ 8 + block.getD (4 * t + 3) 0

/-- Extend the message schedule by `fuel` further words (48 in total). -/
def extendW : Nat → List Nat → List Nat
  | 0, w => w
  | fuel + 1, w =>
      extendW fuel (w ++ [(ssig1 (w.getD (w.length - 2) 0) + w.getD (w.length - 7) 0 +
        ssig0 (w.getD (w.length - 15) 0) + w.getD (w.length - 16) 0) % 2 ^ 32])

/-- One round of the SHA-256 compression loop. -/
def sha256Round (w : List Nat) (s : Sha256State) (t : Nat) : Sha256State :=
  let t1 := (s.h + bsig1 s.e + chF s.e s.f s.g + sha256K.getD t 0 + w.getD t 0) % 2 ^ 32
  let t2 := (bsig0 s.a + majF s.a s.b s.c) % 2 ^ 32
  ⟨(t1 + t2) % 2 ^ 32, s.a, s.b, s.c, (s.d + t1) % 2 ^ 32, s.e, s.f, s.g⟩

/-- Process one 64-byte block. -/
def sha256Compress (s : Sha256State) (block : List Nat) : Sha256State :=
  let w := extendW 48 (initW block)
  let r := (List.range 64).foldl (sha256Round w) s
  ⟨(s.a + r.a) % 2 ^ 32, (s.b + r.b) % 2 ^ 32, (s.c + r.c) % 2 ^ 32, (s.d + r.d) % 2 ^ 32,
   (s.e + r.e) % 2 ^ 32, (s.f + r.f) % 2 ^ 32, (s.g + r.g) % 2 ^ 32, (s.h + r.h) % 2 ^ 32⟩

/-- Serialize the final state to the 32 digest bytes. -/
def digestBytes (s : Sha256State) : List Nat :=
  u32be s.a ++ u32be s.b ++ u32be s.c ++ u32be s.d ++
    u32be s.e ++ u32be s.f ++ u32be s.g ++ u32be s.h

/-- SHA-256 of a byte list. -/
def sha256 (msg : List Nat) : List Nat :=
  digestBytes ((chunks64 (padMsg msg)).foldl sha256Compress sha256Init)

theorem sha256_length (msg : List Nat) : (sha256 msg).length = 32 := rfl

/-! ### HMAC-SHA256 (Go crypto/hmac, FIPS 198-1) -/

/-- The key, hashed if longer than the block size, zero-padded to 64 bytes. -/
def hmacKey0 (key : List Nat) : List Nat :=
  let k := if 64 < key.length then sha256 key else key
  k ++ List.replicate (64 - k.length) 0

/-- HMAC-SHA256 of `msg` under `key`. -/
def hmacSha256 (key msg : List Nat) : List Nat :=
  sha256 ((hmacKey0 key).map (fun b => b ^^^ 0x5c) ++
    sha256 ((hmacKey0 key).map (fun b => b ^^^ 0x36) ++ msg))

theorem hmacSha256_length (key msg : List Nat) : (hmacSha256 key msg).length = 32 := rfl

/-! ### Hex encoding (Go encoding/hex and fmt %x / %X) -/

def hexDigitLower (n : Nat) : Char :=
  if n < 10 then Char.ofNat (48 + n) else Char.ofNat (87 + n)

def hexDigitUpper (n : Nat) : Char :=
  if n < 10 then Char.ofNat (48 + n) else Char.ofNat (55 + n)

def hexChars (digit : Nat → Char) : List Nat → List Char
  | [] => []
  | b :: bs => digit (b / 16) :: digit (b % 16) :: hexChars digit bs

/-- Lowercase hex rendering of a byte list (Go `%x`, `hex.EncodeToString`). -/
def lowerHex (bs : List Nat) : String := String.mk (hexChars hexDigitLower bs)

/-- Uppercase hex rendering of a byte list (Go `strings.ToUpper` over hex). -/
def upperHex (bs : List Nat) : String := String.mk (hexChars hexDigitUpper bs)

theorem hexChars_length (digit : Nat → Char) (bs : List Nat) :
    (hexChars digit bs).length = 2 * bs.length := by
  induction bs with
  | nil => rfl
  | cons b bs ih => simp [hexChars, ih]; omega

theorem upperHex_length (bs : List Nat) : (upperHex bs).length = 2 * bs.length := by
  show (hexChars hexDigitUpper bs).length = 2 * bs.length
  exact hexChars_length _ _

/-- UTF-8 bytes of a string, matching Go's byte view of a `string`. -/
def strBytes (s : String) : List Nat := s.toUTF8.toList.map (fun b => b.toNat)

/-! ### internal/tuya: configuration and request signing -/

/-- `tuya.Config` (tuya.go lines 18-25). `WaitSeconds` is a Go `int`. -/
structure Config where
  Enabled : Bool
  AccessID : String
  AccessKey : String
  DeviceID : String
  Region : String
  WaitSeconds : Int
  deriving Repr, DecidableEq

/-- `tokenInfo` (tuya.go lines 34-38): the cached record.  `expireTime` is the
locally computed absolute expiry, on a clock counted in seconds. -/
structure TokenInfo where
  accessToken : String
  expireTime : Int
  refreshToken : String
  deriving Repr, DecidableEq

/-- The `result` part of a successful `tokenResponse` (tuya.go lines 40-47):
the server reports a TTL (`expire_time`, seconds) and a token pair. -/
structure TokenResult where
  accessToken : String
  expireTTL : Int
  refreshToken : String
  deriving Repr, DecidableEq

/-- `calculateSign` (tuya.go lines 287-297): uppercase hex of HMAC-SHA256,
keyed by AccessKey, over `AccessID ++ decimal timestamp ++ stringToSign`. -/
def calculateSign (c : Config) (stringToSign : String) (timestamp : Int) : String :=
  upperHex (hmacSha256 (strBytes c.AccessKey)
    (strBytes (c.AccessID ++ toString timestamp ++ stringToSign)))

/-- The inline signature of `getNewToken` (tuya.go lines 86-89): HMAC-SHA256
over `AccessID ++ decimal timestamp` only, rendered uppercase hex. -/
def tokenRequestSign (c : Config) (timestamp : Int) : String :=
  upperHex (hmacSha256 (strBytes c.AccessKey)
    (strBytes (c.AccessID ++ toString timestamp)))

/-- The JSON body marshalled in `controlSwitch` (tuya.go lines 229-241);
Go `json.Marshal` renders map keys in sorted order with no extra spaces. -/
def switchBody (turnOn : Bool) : String :=
  "\x7b\"commands\":[\x7b\"code\":\"switch_1\",\"value\":" ++
    (if turnOn then "true" else "false") ++ "\x7d]\x7d"

/-- The device-command request path of `controlSwitch` (tuya.go line 228). -/
def commandsPath (c : Config) : String :=
  "/v1.0/iot-03/devices/" ++ c.DeviceID ++ "/commands"

/-- The string-to-sign built in `controlSwitch` (tuya.go lines 252-253):
`"POST\n" ++ lowercase hex sha256 of the body ++ "\n\n" ++ path`. -/
def controlSwitchStringToSign (c : Config) (turnOn : Bool) : String :=
  "POST\n" ++ lowerHex (sha256 (strBytes (switchBody turnOn))) ++ "\n\n" ++ commandsPath c

/-- The signature sent by `controlSwitch` (tuya.go line 254). -/
def controlSwitchSign (c : Config) (turnOn : Bool) (timestamp : Int) : String :=
  calculateSign c (controlSwitchStringToSign c turnOn) timestamp

/-- The string-to-sign of `refreshToken` (tuya.go lines 141-144). -/
def refreshStringToSign (rt : String) : String :=
  "GET\n\n\n" ++ ("/v1.0/token/" ++ rt)

/-! ### internal/tuya: token cache (`getToken`, tuya.go lines 181-218)

The two network acquisitions (`refreshToken`, `getNewToken`) are external HTTP
calls; their outcomes are supplied by a `TokenEnv`, and `getToken` returns the
list of network calls it issued alongside the new cache state and its result
(`some accessToken` on success, `none` when acquisition fails). -/

/-- Outcomes of the token network calls: `none` models a call that fails. -/
structure TokenEnv where
  refreshOutcome : Option TokenResult
  acquireOutcome : Option TokenResult
  deriving Repr, DecidableEq

inductive TokenCall where
  | refreshCall
  | acquireCall
  deriving Repr, DecidableEq

/-- The record built from a successful token response (tuya.go lines 132-136
and 174-178): local expiry is acquisition time plus the server TTL minus a
5-minute (300 s) safety margin. -/
def mkTokenInfo (now : Int) (r : TokenResult) : TokenInfo :=
  { accessToken := r.accessToken
    expireTime := now + r.expireTTL - 300
    refreshToken := r.refreshToken }

/-- The full-acquisition tail of the slow path (tuya.go lines 210-217): on
failure the cache is left as it was and an error is returned. -/
def acquireTail (tok : Option TokenInfo) (now : Int) (env : TokenEnv)
    (calls : List TokenCall) : Option TokenInfo × List TokenCall × Option String :=
  match env.acquireOutcome with
  | some r => (some (mkTokenInfo now r), calls ++ [TokenCall.acquireCall], some r.accessToken)
  | none => (tok, calls ++ [TokenCall.acquireCall], none)

/-- The slow path of `getToken` (tuya.go lines 192-217).  The double-check
under the exclusive lock re-reads the same cache state, which in this
sequential model is the test the fast path just failed, so it falls through;
if a refresh token is present a refresh is attempted first, falling back to a
full acquisition on refresh failure. -/
def getTokenSlow (tok : Option TokenInfo) (now : Int) (env : TokenEnv) :
    Option TokenInfo × List TokenCall × Option String :=
  match tok with
  | some t =>
    if t.refreshToken ≠ "" then
      match env.refreshOutcome with
      | some r => (some (mkTokenInfo now r), [TokenCall.refreshCall], some r.accessToken)
      | none => acquireTail tok now env [TokenCall.refreshCall]
    else acquireTail tok now env []
  | none => acquireTail tok now env []

/-- `getToken` (tuya.go lines 181-218): fast path returns the cached access
token, without any network call, whenever the record exists and `now` is
before its expiry. -/
def getToken (tok : Option TokenInfo) (now : Int) (env : TokenEnv) :
    Option TokenInfo × List TokenCall × Option String :=
  match tok with
  | some t =>
    if now < t.expireTime then (tok, [], some t.accessToken)
    else getTokenSlow tok now env
  | none => getTokenSlow tok now env

/-! ### internal/tuya: `RestartDevice` (tuya.go lines 59-78) -/

/-- Externally visible actions of `RestartDevice`: each `switchCommand` is one
`controlSwitch` invocation (a token fetch plus a signed HTTP POST), `sleep`
is the wait between the off and on toggles. -/
inductive DeviceAction where
  | switchCommand (turnOn : Bool)
  | sleep (seconds : Int)
  deriving Repr, DecidableEq

/-- Outcomes of the two `controlSwitch` calls, supplied by the environment. -/
structure RestartEnv where
  offOk : Bool
  onOk : Bool
  deriving Repr, DecidableEq

inductive RestartResult where
  | ok
  | failedOff
  | failedOn
  deriving Repr, DecidableEq

/-- `RestartDevice` (tuya.go lines 59-78): no-op success when disabled;
otherwise toggle off, sleep `WaitSeconds`, toggle on; abort after a failed
off-toggle without attempting the on-toggle. -/
def RestartDevice (c : Config) (env : RestartEnv) : List DeviceAction × RestartResult :=
  if c.Enabled = false then ([], RestartResult.ok)
  else if env.offOk = false then
    ([DeviceAction.switchCommand false], RestartResult.failedOff)
  else if env.onOk = false then
    ([DeviceAction.switchCommand false, DeviceAction.sleep c.WaitSeconds,
      DeviceAction.switchCommand true], RestartResult.failedOn)
  else
    ([DeviceAction.switchCommand false, DeviceAction.sleep c.WaitSeconds,
      DeviceAction.switchCommand true], RestartResult.ok)

/-! ### internal/monitor: data model -/

/-- `monitor.NotifyConfig` (monitor.go lines 27-31). -/
structure NotifyConfig where
  APIURL : String
  APIToken : String
  TopicID : Int
  deriving Repr, DecidableEq

/-- `tuya.Client` as held by the monitor (tuya.go lines 27-32): its
configuration and the cached token record (`nil` in a fresh client). -/
structure TuyaClient where
  config : Config
  token : Option TokenInfo
  deriving Repr, DecidableEq

/-- `tuya.NewClient` (tuya.go lines 49-57): a fresh client has no cached
token.  (The shared `http.Client` is carried by the `Monitor` model.) -/
def NewClient (config : Config) : TuyaClient :=
  { config := config, token := none }

/-- One nanosecond-count second, the unit of Go `time.Duration` values. -/
def secondNs : Int := 1000000000

/-- `monitor.Monitor` (monitor.go lines 15-25).  `timeout` mirrors the
`timeout` field and `clientTimeout` the shared `http.Client`'s `Timeout`,
both as `time.Duration` nanosecond counts. -/
structure Monitor where
  url : String
  token : String
  notifyConf : NotifyConfig
  tuyaClient : TuyaClient
  retryTimes : Int
  timeout : Int
  failCount : Int
  hasNotified : Bool
  clientTimeout : Int
  deriving Repr, DecidableEq

/-- `isSuccessStatus` (monitor.go lines 33-35). -/
def isSuccessStatus (code : Int) : Bool :=
  decide (200 ≤ code) && decide (code < 300)

/-- `NewMonitor` (monitor.go lines 37-55): a non-positive timeout defaults to
10 seconds, for both the stored timeout and the HTTP client's timeout. -/
def NewMonitor (url token : String) (notify : NotifyConfig) (tuyaConfig : Config)
    (retryTimes timeout : Int) : Monitor :=
  let t := if timeout ≤ 0 then 10 else timeout
  { url := url
    token := token
    notifyConf := notify
    tuyaClient := NewClient tuyaConfig
    retryTimes := retryTimes
    timeout := t * secondNs
    failCount := 0
    hasNotified := false
    clientTimeout := t * secondNs }

/-- `UpdateConfig` (monitor.go lines 165-176): swaps the configuration and
rebuilds the tuya client, leaving `failCount` and `hasNotified` alone. -/
def UpdateConfig (m : Monitor) (url token : String) (notify : NotifyConfig)
    (tuyaConfig : Config) (retryTimes timeout : Int) : Monitor :=
  let t := if timeout ≤ 0 then 10 else timeout
  { m with
    url := url
    token := token
    notifyConf := notify
    tuyaClient := NewClient tuyaConfig
    retryTimes := retryTimes
    timeout := t * secondNs
    clientTimeout := t * secondNs }

/-! ### internal/monitor: one check cycle (`Check`, monitor.go lines 57-112)

The probe and the notification/restart HTTP calls are external effects; a
`CycleEnv` supplies their outcomes, and `Check` reports which side calls it
made in a `CycleEvents` record alongside the updated monitor and its error
result (`none` is the `nil` return). -/

/-- Outcome of the probe request (monitor.go line 65): a transport error from
`client.Do`, or a response with a status code. -/
inductive ProbeOutcome where
  | transportError
  | status (code : Int)
  deriving Repr, DecidableEq

/-- Outcomes of the external calls a cycle may make.  `restartOk` is the
result of `RestartDevice`, `notifyDownOk` of `notifyDown`, `notifyUpOk` of
`notifyUp`; a failed restart or recovery notification is only logged. -/
structure CycleEnv where
  probe : ProbeOutcome
  restartOk : Bool
  notifyDownOk : Bool
  notifyUpOk : Bool
  deriving Repr, DecidableEq

/-- Which external side calls the cycle performed. -/
structure CycleEvents where
  restartCalled : Bool
  downNotifyCalled : Bool
  upNotifyCalled : Bool
  deriving Repr, DecidableEq

/-- The error returned by `Check`: the probe transport error (line 80), the
`unexpected status code` error (line 98), or the wrapped notification error
(lines 76 and 94) which replaces the probe error. -/
inductive CheckError where
  | probeTransport
  | unexpectedStatus (code : Int)
  | notifyDownFailed
  deriving Repr, DecidableEq

/-- The shared failure path of `Check` (monitor.go lines 66-80 and 84-98):
increment `failCount`; once it reaches `retryTimes`, call `RestartDevice`
(failure logged) and `notifyDown`; a notification failure is returned in
place of the probe error and leaves `hasNotified` unset. -/
def onProbeFailure (m : Monitor) (env : CycleEnv) (probeErr : CheckError) :
    Monitor × CycleEvents × Option CheckError :=
  let m1 := { m with failCount := m.failCount + 1 }
  if m1.retryTimes ≤ m1.failCount then
    if env.notifyDownOk then
      ({ m1 with hasNotified := true },
        { restartCalled := true, downNotifyCalled := true, upNotifyCalled := false },
        some probeErr)
    else
      (m1, { restartCalled := true, downNotifyCalled := true, upNotifyCalled := false },
        some CheckError.notifyDownFailed)
  else
    (m1, { restartCalled := false, downNotifyCalled := false, upNotifyCalled := false },
      some probeErr)

/-- `Check` (monitor.go lines 57-112). -/
def Check (m : Monitor) (env : CycleEnv) : Monitor × CycleEvents × Option CheckError :=
  match env.probe with
  | ProbeOutcome.transportError => onProbeFailure m env CheckError.probeTransport
  | ProbeOutcome.status code =>
    if isSuccessStatus code then
      if m.hasNotified then
        ({ m with hasNotified := false, failCount := 0 },
          { restartCalled := false, downNotifyCalled := false, upNotifyCalled := true },
          none)
      else
        (m, { restartCalled := false, downNotifyCalled := false, upNotifyCalled := false },
          none)
    else
      onProbeFailure m env (CheckError.unexpectedStatus code)

/-- The monitor state after a sequence of check cycles. -/
def runCheck (m : Monitor) (envs : List CycleEnv) : Monitor :=
  envs.foldl (fun st e => (Check st e).fst) m

/-- Whether the cycle's probe failed (transport error or non-success code). -/
def probeFails (env : CycleEnv) : Bool :=
  match env.probe with
  | ProbeOutcome.transportError => true
  | ProbeOutcome.status code => !isSuccessStatus code

/-! ### Concrete fixtures used by witnesses and counterexamples -/

def tuyaCfg0 : Config :=
  { Enabled := false, AccessID := "id", AccessKey := "key", DeviceID := "dev",
    Region := "us", WaitSeconds := 5 }

def notifyCfg0 : NotifyConfig :=
  { APIURL := "http://notify", APIToken := "nt", TopicID := 1 }

/-- A monitor with failure threshold 1. -/
def mon1 : Monitor := NewMonitor "http://ha" "tok" notifyCfg0 tuyaCfg0 1 10

/-- A monitor with failure threshold 3. -/
def mon3 : Monitor := NewMonitor "http://ha" "tok" notifyCfg0 tuyaCfg0 3 10

/-- A failing probe; restart and both notifications would succeed. -/
def envFail : CycleEnv :=
  { probe := ProbeOutcome.transportError, restartOk := true,
    notifyDownOk := true, notifyUpOk := true }

/-- A failing probe whose down-notification call fails. -/
def envFailND : CycleEnv :=
  { probe := ProbeOutcome.transportError, restartOk := true,
    notifyDownOk := false, notifyUpOk := true }

/-- A successful probe (status 200). -/
def envOk : CycleEnv :=
  { probe := ProbeOutcome.status 200, restartOk := true,
    notifyDownOk := true, notifyUpOk := true }

/-- The enabled variant of the device configuration. -/
def tuyaCfg1 : Config := { tuyaCfg0 with Enabled := true }

/-- A probe answered with status 404; all side calls would succeed. -/
def env404 : CycleEnv :=
  { probe := ProbeOutcome.status 404, restartOk := true,
    notifyDownOk := true, notifyUpOk := true }

/-! ### Claims C1-C4, C8: the check cycle -/

/-- Claim C1 is refuted on the code: with threshold 1, after a first failing
check has set `hasNotified`, a second failing check still calls both
`RestartDevice` and the down-notification, because the failure path of
`Check` (monitor.go lines 66-79 and 85-97) never consults `hasNotified`. -/
theorem C1_counterexample :
    (Check mon1 envFail).fst.hasNotified = true ∧
    (Check (Check mon1 envFail).fst envFail).snd.fst.restartCalled = true ∧
    (Check (Check mon1 envFail).fst envFail).snd.fst.downNotifyCalled = true := by
  decide

/-- Claim C1 amended: on a failing probe, `RestartDevice` and the
down-notification are invoked exactly when the incremented `failCount` has
reached or exceeded the threshold, regardless of `hasNotified`; in
particular a further failing check while `hasNotified` is true invokes both
again. -/
theorem C1_restart_and_notify_iff_threshold (m : Monitor) (env : CycleEnv)
    (hf : probeFails env = true) :
    ((Check m env).snd.fst.restartCalled = true ∧
      (Check m env).snd.fst.downNotifyCalled = true) ↔
      m.retryTimes ≤ m.failCount + 1 := by
  obtain ⟨probe, ro, nd, nu⟩ := env
  cases probe with
  | transportError =>
      by_cases hth : m.retryTimes ≤ m.failCount + 1 <;>
        cases nd <;> simp [Check, onProbeFailure, hth]
  | status code =>
      have hs : isSuccessStatus code = false := by
        simpa [probeFails] using hf
      by_cases hth : m.retryTimes ≤ m.failCount + 1 <;>
        cases nd <;> simp [Check, onProbeFailure, hs, hth]

/-- Witness for the amended C1 at a concrete failing cycle. -/
theorem C1_restart_and_notify_iff_threshold_witness :
    probeFails envFail = true ∧
      (((Check mon1 envFail).snd.fst.restartCalled = true ∧
        (Check mon1 envFail).snd.fst.downNotifyCalled = true) ↔
        mon1.retryTimes ≤ mon1.failCount + 1) :=
  ⟨rfl, C1_restart_and_notify_iff_threshold mon1 envFail rfl⟩

/-- Claim C2 is refuted on the code: with threshold 3 and the outcome
sequence fail, fail, success, fail, the success does not reset `failCount`
(it stays 2 because `hasNotified` is still false), so `hasNotified` becomes
true at the fourth call, whose contiguous run of failures has length 1 < 3. -/
theorem C2_counterexample :
    (runCheck mon3 [envFail, envFail, envOk]).hasNotified = false ∧
    (runCheck mon3 [envFail, envFail, envOk]).failCount = 2 ∧
    (runCheck mon3 [envFail, envFail, envOk, envFail]).hasNotified = true := by
  decide

/-- Claim C2 amended: `hasNotified` transitions from false to true exactly at
a failing call whose down-notification succeeds and whose incremented
`failCount` reaches or exceeds the threshold; since `failCount` accumulates
across successes that occur before a down-notification (it resets only on a
notified recovery), the transition can happen at a call whose recent
failures are not contiguous. -/
theorem C2_notify_transition (m : Monitor) (env : CycleEnv)
    (hn : m.hasNotified = false) :
    (Check m env).fst.hasNotified = true ↔
      (probeFails env = true ∧ env.notifyDownOk = true ∧
        m.retryTimes ≤ m.failCount + 1) := by
  obtain ⟨probe, ro, nd, nu⟩ := env
  cases probe with
  | transportError =>
      by_cases hth : m.retryTimes ≤ m.failCount + 1 <;>
        cases nd <;> simp [Check, onProbeFailure, probeFails, hth, hn]
  | status code =>
      by_cases hs : isSuccessStatus code <;>
        by_cases hth : m.retryTimes ≤ m.failCount + 1 <;>
          cases nd <;> simp [Check, onProbeFailure, probeFails, hs, hth, hn]

/-- Witness for the amended C2 at a concrete state and cycle. -/
theorem C2_notify_transition_witness :
    mon1.hasNotified = false ∧
      ((Check mon1 envFail).fst.hasNotified = true ↔
        (probeFails envFail = true ∧ envFail.notifyDownOk = true ∧
          mon1.retryTimes ≤ mon1.failCount + 1)) :=
  ⟨rfl, C2_notify_transition mon1 envFail rfl⟩

/-- Claim C3: on a successful probe, if `hasNotified` was true, exactly one
recovery notification is attempted and the state resets to healthy with a
`nil` result; if it was false, the cycle is a no-op returning `nil` — so
`failCount` is reset only on the down-notified-to-healthy transition, and a
success while degrading leaves `failCount` unchanged. -/
theorem C3_success_path (m : Monitor) (env : CycleEnv) (code : Int)
    (hp : env.probe = ProbeOutcome.status code) (hs : isSuccessStatus code = true) :
    (m.hasNotified = true →
      Check m env = ({ m with hasNotified := false, failCount := 0 },
        { restartCalled := false, downNotifyCalled := false, upNotifyCalled := true },
        none)) ∧
    (m.hasNotified = false →
      Check m env = (m,
        { restartCalled := false, downNotifyCalled := false, upNotifyCalled := false },
        none)) := by
  constructor <;> intro h1 <;> simp [Check, hp, hs, h1]

/-- Witness for C3: a healthy monitor and a 200 probe leave it untouched. -/
theorem C3_success_path_witness :
    isSuccessStatus 200 = true ∧
      Check mon3 envOk = (mon3,
        { restartCalled := false, downNotifyCalled := false, upNotifyCalled := false },
        none) :=
  ⟨rfl, (C3_success_path mon3 envOk 200 rfl rfl).right rfl⟩

/-- Claim C4 is refuted on the code in its `hasNotified is left false` part:
after a first failing cycle has set `hasNotified`, a further failing cycle
whose down-notification fails still returns the notification error, and
`hasNotified` is left true, not false. -/
theorem C4_counterexample :
    (Check mon1 envFail).fst.hasNotified = true ∧
    (Check (Check mon1 envFail).fst envFailND).snd.snd =
      some CheckError.notifyDownFailed ∧
    (Check (Check mon1 envFail).fst envFailND).fst.hasNotified = true := by
  decide

/-- Claim C4 amended: when the down-notification fails during a failing check
at or past the threshold, `Check` returns the notification error (the probe
error is discarded) and `hasNotified` is left unchanged — in particular it
remains false when it was false — while `failCount` keeps its increment. -/
theorem C4_notify_failure (m : Monitor) (env : CycleEnv)
    (hf : probeFails env = true) (hnd : env.notifyDownOk = false)
    (hth : m.retryTimes ≤ m.failCount + 1) :
    (Check m env).snd.snd = some CheckError.notifyDownFailed ∧
    (Check m env).fst.hasNotified = m.hasNotified ∧
    (Check m env).fst.failCount = m.failCount + 1 := by
  obtain ⟨probe, ro, nd, nu⟩ := env
  cases probe with
  | transportError =>
      subst hnd
      simp [Check, onProbeFailure, hth]
  | status code =>
      have hs : isSuccessStatus code = false := by
        simpa [probeFails] using hf
      subst hnd
      simp [Check, onProbeFailure, hs, hth]

/-- Witness for the amended C4: a fresh threshold-1 monitor, failing probe,
failing down-notification. -/
theorem C4_notify_failure_witness :
    probeFails envFailND = true ∧
      ((Check mon1 envFailND).snd.snd = some CheckError.notifyDownFailed ∧
        (Check mon1 envFailND).fst.hasNotified = mon1.hasNotified ∧
        (Check mon1 envFailND).fst.failCount = mon1.failCount + 1) :=
  ⟨rfl, C4_notify_failure mon1 envFailND rfl rfl (by decide)⟩

/-- Claim C8: a probe response is a success exactly when its status code lies
in 200..299 inclusive; 204 is a success, 404 is a failure, and a 404
response increments `failCount`. -/
theorem C8_success_range (code : Int) (m : Monitor) :
    (isSuccessStatus code = true ↔ (200 ≤ code ∧ code ≤ 299)) ∧
    isSuccessStatus 204 = true ∧
    isSuccessStatus 404 = false ∧
    (Check m env404).fst.failCount = m.failCount + 1 := by
  refine ⟨?_, rfl, rfl, ?_⟩
  · simp only [isSuccessStatus, Bool.and_eq_true, decide_eq_true_eq]
    omega
  · by_cases hth : m.retryTimes ≤ m.failCount + 1 <;>
      simp [Check, env404, onProbeFailure, isSuccessStatus, hth]

/-! ### Claim C5: request signing -/

/-- Claim C5: the general signature is the uppercase hex of HMAC-SHA256 keyed
by the access secret over `accessId ++ decimal timestamp ++ stringToSign`
(a 64-hex-character digest); the device-command POST string-to-sign is
`"POST\n" ++ lowercase hex sha256 of the body ++ "\n\n" ++ path`; and the
token-acquisition signature is the same scheme applied to the shorter
message `accessId ++ decimal timestamp` alone. -/
theorem C5_signature (c : Config) (s : String) (ts : Int) (turnOn : Bool) :
    calculateSign c s ts =
      upperHex (hmacSha256 (strBytes c.AccessKey)
        (strBytes (c.AccessID ++ toString ts ++ s))) ∧
    (calculateSign c s ts).length = 64 ∧
    controlSwitchStringToSign c turnOn =
      "POST\n" ++ lowerHex (sha256 (strBytes (switchBody turnOn))) ++ "\n\n" ++
        ("/v1.0/iot-03/devices/" ++ c.DeviceID ++ "/commands") ∧
    tokenRequestSign c ts = calculateSign c "" ts := by
  refine ⟨rfl, ?_, rfl, ?_⟩
  · show (upperHex (hmacSha256 _ _)).length = 64
    rw [upperHex_length, hmacSha256_length]
  · unfold tokenRequestSign calculateSign
    rw [String.append_empty]

/-! ### Claim C6: token cache -/

/-- Claim C6: a cached record whose expiry is in the future is served with no
network call; a stored expiry is the acquisition time plus the reported TTL
minus 300 seconds; hence a token acquired at time 0 with TTL `ttl` is still
served from cache at `ttl - 360` (6 min early) but triggers a refresh call
at `ttl - 240` (4 min early). -/
theorem C6_token_cache (t : TokenInfo) (now : Int) (env : TokenEnv)
    (r : TokenResult) (ttl : Int) (a rt : String)
    (hvalid : now < t.expireTime) (hrt : rt ≠ "") :
    getToken (some t) now env = (some t, [], some t.accessToken) ∧
    (mkTokenInfo now r).expireTime = now + r.expireTTL - 300 ∧
    getToken (some (mkTokenInfo 0 ⟨a, ttl, rt⟩)) (ttl - 360) env =
      (some (mkTokenInfo 0 ⟨a, ttl, rt⟩), [], some a) ∧
    (getToken (some (mkTokenInfo 0 ⟨a, ttl, rt⟩)) (ttl - 240) env).snd.fst.head? =
      some TokenCall.refreshCall := by
  refine ⟨?_, rfl, ?_, ?_⟩
  · simp [getToken, if_pos hvalid]
  · have h1 : ttl - 360 < (mkTokenInfo 0 ⟨a, ttl, rt⟩).expireTime := by
      show ttl - 360 < 0 + ttl - 300
      omega
    simp [getToken, if_pos h1, mkTokenInfo]
  · have h2 : ¬ ttl - 240 < (mkTokenInfo 0 ⟨a, ttl, rt⟩).expireTime := by
      show ¬ ttl - 240 < 0 + ttl - 300
      omega
    obtain ⟨ro, ao⟩ := env
    simp only [getToken, if_neg h2, getTokenSlow, mkTokenInfo]
    rw [if_pos hrt]
    cases ro <;> cases ao <;> simp [acquireTail]

/-- Witness for C6 with a concrete cached record and clock. -/
theorem C6_token_cache_witness :
    (5 : Int) < (10 : Int) ∧ ("r" : String) ≠ "" ∧
      getToken (some ⟨"at", 10, "r"⟩) 5 ⟨none, none⟩ =
        (some ⟨"at", 10, "r"⟩, [], some "at") :=
  ⟨by decide, by decide,
    (C6_token_cache ⟨"at", 10, "r"⟩ 5 ⟨none, none⟩ ⟨"x", 100, "y"⟩ 1000 "a" "r"
      (by decide) (by decide)).1⟩

/-! ### Claim C7: device restart -/

/-- Claim C7: `RestartDevice` is a no-op success when the integration is
disabled; when enabled it toggles off, sleeps `WaitSeconds`, toggles on,
and a failed off-toggle aborts with failure without ever attempting the
on-toggle. -/
theorem C7_restart_device (c : Config) (env : RestartEnv) :
    (c.Enabled = false → RestartDevice c env = ([], RestartResult.ok)) ∧
    (c.Enabled = true → env.offOk = false →
      RestartDevice c env = ([DeviceAction.switchCommand false], RestartResult.failedOff) ∧
      DeviceAction.switchCommand true ∉ (RestartDevice c env).fst) ∧
    (c.Enabled = true → env.offOk = true →
      (RestartDevice c env).fst = [DeviceAction.switchCommand false,
        DeviceAction.sleep c.WaitSeconds, DeviceAction.switchCommand true] ∧
      (env.onOk = true → RestartDevice c env = ([DeviceAction.switchCommand false,
        DeviceAction.sleep c.WaitSeconds, DeviceAction.switchCommand true],
        RestartResult.ok))) := by
  obtain ⟨o1, o2⟩ := env
  refine ⟨fun hE => ?_, fun hE hOff => ?_, fun hE hOff => ⟨?_, fun hOn => ?_⟩⟩
  · simp [RestartDevice, hE]
  · simp_all [RestartDevice]
  · simp_all [RestartDevice]
    cases o2 <;> simp
  · simp_all [RestartDevice]

/-- Witness for C7 covering the disabled, failed-off and all-good branches. -/
theorem C7_restart_device_witness :
    RestartDevice tuyaCfg0 ⟨true, true⟩ = ([], RestartResult.ok) ∧
    RestartDevice tuyaCfg1 ⟨false, true⟩ =
      ([DeviceAction.switchCommand false], RestartResult.failedOff) ∧
    RestartDevice tuyaCfg1 ⟨true, true⟩ = ([DeviceAction.switchCommand false,
      DeviceAction.sleep tuyaCfg1.WaitSeconds, DeviceAction.switchCommand true],
      RestartResult.ok) :=
  ⟨(C7_restart_device tuyaCfg0 ⟨true, true⟩).1 rfl,
    ((C7_restart_device tuyaCfg1 ⟨false, true⟩).2.1 rfl rfl).1,
    ((C7_restart_device tuyaCfg1 ⟨true, true⟩).2.2 rfl rfl).2 rfl⟩

/-! ### Claims C9, C10: configuration updates -/

/-- Claim C9: `UpdateConfig` replaces the URL, bearer token, notify settings,
device client (rebuilt, so the cached token record is discarded), threshold
and timeout (propagated to the HTTP client's timeout), while `failCount`
and `hasNotified` are unchanged. -/
theorem C9_update_config (m : Monitor) (url token : String) (notify : NotifyConfig)
    (tc : Config) (rt timeout : Int) :
    (UpdateConfig m url token notify tc rt timeout).url = url ∧
    (UpdateConfig m url token notify tc rt timeout).token = token ∧
    (UpdateConfig m url token notify tc rt timeout).notifyConf = notify ∧
    (UpdateConfig m url token notify tc rt timeout).tuyaClient =
      { config := tc, token := none } ∧
    (UpdateConfig m url token notify tc rt timeout).retryTimes = rt ∧
    (UpdateConfig m url token notify tc rt timeout).timeout =
      (if timeout ≤ 0 then 10 else timeout) * secondNs ∧
    (UpdateConfig m url token notify tc rt timeout).clientTimeout =
      (UpdateConfig m url token notify tc rt timeout).timeout ∧
    (UpdateConfig m url token notify tc rt timeout).failCount = m.failCount ∧
    (UpdateConfig m url token notify tc rt timeout).hasNotified = m.hasNotified :=
  ⟨rfl, rfl, rfl, rfl, rfl, rfl, rfl, rfl, rfl⟩

/-- Claim C10: a non-positive timeout given to `NewMonitor` or `UpdateConfig`
is replaced by a 10-second default, for both the stored timeout and the
HTTP client's timeout. -/
theorem C10_timeout_default (m : Monitor) (url token : String) (notify : NotifyConfig)
    (tc : Config) (rt timeout : Int) (h : timeout ≤ 0) :
    (NewMonitor url token notify tc rt timeout).timeout = 10 * secondNs ∧
    (NewMonitor url token notify tc rt timeout).clientTimeout = 10 * secondNs ∧
    (UpdateConfig m url token notify tc rt timeout).timeout = 10 * secondNs ∧
    (UpdateConfig m url token notify tc rt timeout).clientTimeout = 10 * secondNs := by
  simp [NewMonitor, UpdateConfig, if_pos h]

/-- Witness for C10 at timeout 0. -/
theorem C10_timeout_default_witness :
    (0 : Int) ≤ 0 ∧
      ((NewMonitor "u" "t" notifyCfg0 tuyaCfg0 3 0).timeout = 10 * secondNs ∧
        (NewMonitor "u" "t" notifyCfg0 tuyaCfg0 3 0).clientTimeout = 10 * secondNs ∧
        (UpdateConfig mon1 "u" "t" notifyCfg0 tuyaCfg0 3 0).timeout = 10 * secondNs ∧
        (UpdateConfig mon1 "u" "t" notifyCfg0 tuyaCfg0 3 0).clientTimeout =
          10 * secondNs) :=
  ⟨by decide, C10_timeout_default mon1 "u" "t" notifyCfg0 tuyaCfg0 3 0 (by decide)⟩

end HaMonitor
